import Mathlib

/-!
Verification of the zzimage credential-pool scheduler and generation
orchestrator against its natural-language specification.

The definitions below are a shallow embedding of the Python source:
* `CookieRec`, `get_cookie_daily_usage`, `update_cookie_usage` embed the
  per-credential usage accounting of `app/database.py`;
* `get_next_cookie`, `get_cookie_remaining_quota` embed the round-robin
  scheduler of `app/services/cookie_pool.py` (the cached active-credential
  list is the `cache` argument, the cursor is the `idx` argument, and the
  store read performed on every probe is the `usage` argument);
* `do_generate_loop`, `generate`, `generate_with_retry` embed the retry /
  failover orchestrator of `app/services/image_gen.py`, with the backend
  HTTP outcomes abstracted as a `BackendResp` oracle and all side effects
  (scheduler selections, backend calls, `mark_cookie_used` records,
  generation-log writes) collected in a `GenTrace`;
* `generate_image_response` embeds the response projection of
  `app/routers/generate.py`.
-/

namespace ZZImage

/-! ## Store model (`app/database.py`) -/

/-- One row of the `cookies` table: the fields of `database.py`'s `Cookie`
that the scheduler's accounting touches.  `daily_date` is `none` when the
SQL column is NULL; days are abstracted as natural numbers. -/
structure CookieRec where
  use_count : Nat
  error_count : Nat
  daily_used : Nat
  daily_date : Option Nat
deriving DecidableEq

/-- The `cookies` table, keyed by credential id. -/
def Store : Type := Nat → Option CookieRec

/-- `Database.get_cookie_daily_usage`: return `daily_used` when the stored
`daily_date` equals today, else 0 (also 0 when the row is missing). -/
def get_cookie_daily_usage (store : Store) (today : Nat) (cid : Nat) : Nat :=
  match store cid with
  | some r => if r.daily_date = some today then r.daily_used else 0
  | none => 0

/-- Point update of the store at one credential id. -/
def setStore (store : Store) (cid : Nat) (r : CookieRec) : Store :=
  fun x => if x = cid then some r else store x

/-- `Database.update_cookie_usage`: first reset `daily_used`/`daily_date`
when the stored date is not today, then increment `use_count` and
`daily_used` on success or `error_count` on failure.  A missing row is
left untouched (the SQL UPDATEs match no row). -/
def update_cookie_usage (store : Store) (today : Nat) (cid : Nat) (success : Bool) : Store :=
  let store1 :=
    match store cid with
    | some r =>
        if r.daily_date ≠ some today then
          setStore store cid ⟨r.use_count, r.error_count, 0, some today⟩
        else store
    | none => store
  match store1 cid with
  | some r =>
      if success then
        setStore store1 cid ⟨r.use_count + 1, r.error_count, r.daily_used + 1, some today⟩
      else
        setStore store1 cid ⟨r.use_count, r.error_count + 1, r.daily_used, r.daily_date⟩
  | none => store1

/-! ## Pool scheduler model (`app/services/cookie_pool.py`)

`CookiePool.get_next_cookie` holds the lock, refreshes the cache, and then
probes at most `len(cache)` entries starting at the cursor, advancing the
cursor (with wrap-around) on every probe, returning the first credential
whose current-day usage is below the daily quota.  The cached list is
modelled as the list of credential ids (`cache`), the per-probe store read
`db.get_cookie_daily_usage` as the `usage` function, and the cursor as
`idx`.  The refresh step guarantees `idx < cache.length` on entry to the
probe loop (the cursor is reset to 0 whenever it falls outside the list).
-/

/-- The probe loop of `CookiePool.get_next_cookie`: `fuel` is the number of
remaining attempts (initially the pool size).  Returns the selected
credential (if any) together with the final cursor. -/
def get_next_cookie_aux (cache : List Nat) (usage : Nat → Nat) (quota : Nat) :
    Nat → Nat → Option Nat × Nat
  | idx, 0 => (none, idx)
  | idx, fuel + 1 =>
      if usage (cache.getD idx 0) < quota then
        (some (cache.getD idx 0), (idx + 1) % cache.length)
      else
        get_next_cookie_aux cache usage quota ((idx + 1) % cache.length) fuel

/-- `CookiePool.get_next_cookie`: empty pool returns `none`; otherwise run
the probe loop for at most pool-size attempts. -/
def get_next_cookie (cache : List Nat) (usage : Nat → Nat) (quota : Nat) (idx : Nat) :
    Option Nat × Nat :=
  if cache.isEmpty then (none, idx)
  else get_next_cookie_aux cache usage quota idx cache.length

/-- `CookiePool.get_cookie_remaining_quota`: `max(0, DAILY_QUOTA - daily_used)`. -/
def get_cookie_remaining_quota (store : Store) (today : Nat) (quota : Nat) (cid : Nat) : Int :=
  max 0 ((quota : Int) - (get_cookie_daily_usage store today cid : Int))

/-- The sequence of cache entries probed by `get_next_cookie` when it
starts at cursor `idx` and makes `k` probes: positions `idx, idx+1, ...`
taken modulo the pool size. -/
def probeSeq (cache : List Nat) (idx k : Nat) : List Nat :=
  (List.range k).map fun i => cache.getD ((idx + i) % cache.length) 0

/-- The results of `k` consecutive `get_next_cookie` calls with no
concurrent mutation of the cache or the usage counters, threading the
cursor from one call to the next. -/
def selectCalls (cache : List Nat) (usage : Nat → Nat) (quota : Nat) : Nat → Nat → List (Option Nat)
  | _, 0 => []
  | idx, k + 1 =>
      (get_next_cookie cache usage quota idx).1 ::
        selectCalls cache usage quota (get_next_cookie cache usage quota idx).2 k

/-! ## Orchestrator model (`app/services/image_gen.py`) -/

/-- Outcome of one backend HTTP call, as classified by
`ImageGenerator._do_generate`: a 200 response (with its optional
`b64_json` / `url` payload fields, or with no usable `data`), a 429, a
401, a 400 (with the extracted error message), any other status, or an
`aiohttp.ClientError` (transport failure). -/
inductive BackendResp where
  | okImage (b64 : Option String) (url : Option String)
  | okNoData
  | rateLimited
  | authFailed
  | badRequest (msg : String)
  | serverError (status : Nat)
  | clientError (msg : String)
deriving DecidableEq

/-- `ImageGenerator`'s `GenerationResult` dataclass. -/
structure GenerationResult where
  success : Bool
  image_url : Option String
  image_base64 : Option String
  error : Option String
  cookie_id : Option Nat
deriving DecidableEq

/-- The `GenerationLog` row written by `ImageGenerator.generate`. -/
structure GenerationLog where
  prompt : String
  width : Nat
  height : Nat
  cookie_id : Option Nat
  api_key_id : Option Nat
  status : String
  error_message : Option String
  image_url : Option String
deriving DecidableEq

/-- The observable effects of one orchestrator call: its result, how many
times `get_next_cookie` was called, how many backend HTTP calls were made,
the `mark_cookie_used(cookie_id, success)` records, and the generation-log
rows written. -/
structure GenTrace where
  result : GenerationResult
  selectCalls : Nat
  backendCalls : Nat
  marks : List (Nat × Bool)
  logs : List GenerationLog
deriving DecidableEq

/-- `MIN_IMAGE_SIZE` from `app/config.py`. -/
def MIN_IMAGE_SIZE : Nat := 256

/-- `MAX_IMAGE_SIZE` from `app/config.py`. -/
def MAX_IMAGE_SIZE : Nat := 2048

/-- `MAX_RETRIES` from `app/config.py` (inner retry ceiling, default 3). -/
def MAX_RETRIES : Nat := 3

/-- `ImageGenerator._validate_size`: minimum bound checked first, then the
maximum bound; returns the validity flag and the error message. -/
def validate_size (width height : Nat) : Bool × String :=
  if width < MIN_IMAGE_SIZE ∨ height < MIN_IMAGE_SIZE then
    (false, "尺寸不能小于 " ++ toString MIN_IMAGE_SIZE ++ "x" ++ toString MIN_IMAGE_SIZE)
  else if width > MAX_IMAGE_SIZE ∨ height > MAX_IMAGE_SIZE then
    (false, "尺寸不能大于 " ++ toString MAX_IMAGE_SIZE ++ "x" ++ toString MAX_IMAGE_SIZE)
  else (true, "")

/-- The attempt loop of `ImageGenerator._do_generate` over the remaining
backend responses (list length = remaining attempt budget): 200 returns
immediately (success when a payload field is present), 429 consumes one
attempt and retries, 401 / 400 / other statuses return immediately, a
transport error retries unless it happened on the last attempt, and an
exhausted loop returns the max-retries error.  The second component counts
the backend calls made. -/
def do_generate_loop (cid : Nat) : List BackendResp → GenerationResult × Nat
  | [] => (⟨false, none, none, some "超过最大重试次数", some cid⟩, 0)
  | BackendResp.okImage b64 url :: _ =>
      match b64 with
      | some b => (⟨true, url, some b, none, some cid⟩, 1)
      | none =>
          match url with
          | some u => (⟨true, some u, none, none, some cid⟩, 1)
          | none => (⟨false, none, none, some "API返回数据中没有图片", some cid⟩, 1)
  | BackendResp.okNoData :: _ =>
      (⟨false, none, none, some "API返回数据格式异常", some cid⟩, 1)
  | BackendResp.rateLimited :: rest =>
      ((do_generate_loop cid rest).1, (do_generate_loop cid rest).2 + 1)
  | BackendResp.authFailed :: _ =>
      (⟨false, none, none, some "Cookie/Token无效或已过期", some cid⟩, 1)
  | BackendResp.badRequest msg :: _ =>
      (⟨false, none, none, some ("请求参数错误: " ++ msg), some cid⟩, 1)
  | BackendResp.serverError status :: _ =>
      (⟨false, none, none, some ("API错误: " ++ toString status), some cid⟩, 1)
  | BackendResp.clientError msg :: rest =>
      if rest.isEmpty then
        (⟨false, none, none, some ("请求失败: " ++ msg), some cid⟩, 1)
      else
        ((do_generate_loop cid rest).1, (do_generate_loop cid rest).2 + 1)

/-- `ImageGenerator._do_generate`: run the attempt loop with a budget of
`MAX_RETRIES` attempts, the backend outcome of attempt `i` given by
`responses i`. -/
def do_generate (cid : Nat) (responses : Nat → BackendResp) : GenerationResult × Nat :=
  do_generate_loop cid ((List.range MAX_RETRIES).map responses)

/-- `ImageGenerator.generate`: validate the size (no credential touched on
failure), select a credential (`sel` is what `get_next_cookie` returns;
pool exhaustion fails the call with no backend call, no usage record and
no log), then run `_do_generate`, record the outcome via
`mark_cookie_used` exactly once and write exactly one generation-log row. -/
def generate (prompt : String) (width height : Nat) (akid : Option Nat)
    (sel : Option Nat) (responses : Nat → BackendResp) : GenTrace :=
  if (validate_size width height).1 then
    match sel with
    | none =>
        ⟨⟨false, none, none, some "没有可用的Cookie，请先添加Cookie", none⟩, 1, 0, [], []⟩
    | some cid =>
        ⟨(do_generate cid responses).1, 1, (do_generate cid responses).2,
         [(cid, (do_generate cid responses).1.success)],
         [⟨prompt, width, height, some cid, akid,
           if (do_generate cid responses).1.success then "success" else "failed",
           (do_generate cid responses).1.error, (do_generate cid responses).1.image_url⟩]⟩
  else
    ⟨⟨false, none, none, some (validate_size width height).2, none⟩, 0, 0, [], []⟩

/-- Python's rendering of an optional string inside an f-string
(`None` when absent). -/
def optStr : Option String → String
  | some s => s
  | none => "None"

/-- The failover loop of `ImageGenerator.generate_with_retry`: each outer
iteration runs one full `generate` call (selection included), returning on
the first success; when the iterations are exhausted the request fails with
the last failure's message.  `oracle` supplies, per outer iteration, the
selection outcome and the backend responses of that iteration; its length
is `max_cookie_retries` (default 3).  Traces of the iterations are
concatenated. -/
def generate_with_retry_loop (prompt : String) (width height : Nat) (akid : Option Nat) :
    List (Option Nat × (Nat → BackendResp)) → Option String → GenTrace
  | [], lastError =>
      ⟨⟨false, none, none, some ("所有Cookie都失败: " ++ optStr lastError), none⟩, 0, 0, [], []⟩
  | (sel, responses) :: rest, _ =>
      if (generate prompt width height akid sel responses).result.success then
        generate prompt width height akid sel responses
      else
        ⟨(generate_with_retry_loop prompt width height akid rest
            (generate prompt width height akid sel responses).result.error).result,
         (generate prompt width height akid sel responses).selectCalls +
           (generate_with_retry_loop prompt width height akid rest
             (generate prompt width height akid sel responses).result.error).selectCalls,
         (generate prompt width height akid sel responses).backendCalls +
           (generate_with_retry_loop prompt width height akid rest
             (generate prompt width height akid sel responses).result.error).backendCalls,
         (generate prompt width height akid sel responses).marks ++
           (generate_with_retry_loop prompt width height akid rest
             (generate prompt width height akid sel responses).result.error).marks,
         (generate prompt width height akid sel responses).logs ++
           (generate_with_retry_loop prompt width height akid rest
             (generate prompt width height akid sel responses).result.error).logs⟩

/-- `ImageGenerator.generate_with_retry`: run the failover loop with
`last_error` initially absent. -/
def generate_with_retry (prompt : String) (width height : Nat) (akid : Option Nat)
    (oracle : List (Option Nat × (Nat → BackendResp))) : GenTrace :=
  generate_with_retry_loop prompt width height akid oracle none

/-- Concrete failover oracle: a 2-credential pool selected round-robin
(1, 2, 1), every backend call answered with HTTP 400. -/
def C3oracle : List (Option Nat × (Nat → BackendResp)) :=
  [(some 1, fun _ => BackendResp.badRequest "bad"),
   (some 2, fun _ => BackendResp.badRequest "bad"),
   (some 1, fun _ => BackendResp.badRequest "bad")]

/-- Concrete failover oracle: a 1-credential pool (round-robin always
re-selects credential 1), every backend call answered with HTTP 401. -/
def C5oracle : List (Option Nat × (Nat → BackendResp)) :=
  [(some 1, fun _ => BackendResp.authFailed),
   (some 1, fun _ => BackendResp.authFailed),
   (some 1, fun _ => BackendResp.authFailed)]

/-- The `GenerateResponse` pydantic model of `routers/generate.py`. -/
structure GenerateResponse where
  success : Bool
  image_url : Option String
  image_base64 : Option String
  error : Option String
deriving DecidableEq

/-- `generate_image` (routers/generate.py): build the HTTP response body
from the orchestrator's `GenerationResult`. -/
def generate_image_response (r : GenerationResult) : GenerateResponse :=
  ⟨r.success, r.image_url, r.image_base64, r.error⟩

/-! ## Theorems -/

lemma probeSeq_succ (cache : List Nat) (idx k : Nat) (h : idx < cache.length) :
    probeSeq cache idx (k + 1) =
      cache.getD idx 0 :: probeSeq cache ((idx + 1) % cache.length) k := by
  unfold probeSeq
  rw [List.range_succ_eq_map, List.map_cons, List.map_map]
  congr 1
  · show cache.getD ((idx + 0) % cache.length) 0 = cache.getD idx 0
    rw [Nat.add_zero, Nat.mod_eq_of_lt h]
  · congr 1
    funext i
    simp only [Function.comp_apply]
    have e1 : idx + Nat.succ i = idx + 1 + i := by omega
    rw [Nat.mod_add_mod, e1]

lemma get_next_cookie_eq_aux (cache : List Nat) (usage : Nat → Nat) (quota idx : Nat)
    (h : cache ≠ []) :
    get_next_cookie cache usage quota idx =
      get_next_cookie_aux cache usage quota idx cache.length := by
  simp [get_next_cookie, List.isEmpty_iff, h]

lemma get_next_cookie_aux_eq_find (cache : List Nat) (usage : Nat → Nat) (quota : Nat) :
    ∀ fuel idx, idx < cache.length →
      (get_next_cookie_aux cache usage quota idx fuel).1 =
        ((probeSeq cache idx fuel).find? fun c => decide (usage c < quota)) := by
  intro fuel
  induction fuel with
  | zero =>
      intro idx _
      simp [get_next_cookie_aux, probeSeq]
  | succ n ih =>
      intro idx h
      have hlen : 0 < cache.length := Nat.lt_of_le_of_lt (Nat.zero_le idx) h
      rw [probeSeq_succ cache idx n h]
      by_cases hu : usage (cache.getD idx 0) < quota
      · rw [List.find?_cons_of_pos _ (by simpa using hu)]
        show (if usage (cache.getD idx 0) < quota then
              (some (cache.getD idx 0), (idx + 1) % cache.length)
            else get_next_cookie_aux cache usage quota ((idx + 1) % cache.length) n).1 =
          some (cache.getD idx 0)
        rw [if_pos hu]
      · rw [List.find?_cons_of_neg _ (by simpa using hu)]
        simp only [get_next_cookie_aux, if_neg hu]
        exact ih _ (Nat.mod_lt _ hlen)

lemma get_next_cookie_aux_lt_quota (cache : List Nat) (usage : Nat → Nat) (quota : Nat) :
    ∀ fuel idx c, (get_next_cookie_aux cache usage quota idx fuel).1 = some c →
      usage c < quota := by
  intro fuel
  induction fuel with
  | zero =>
      intro idx c h
      simp [get_next_cookie_aux] at h
  | succ n ih =>
      intro idx c h
      by_cases hu : usage (cache.getD idx 0) < quota
      · simp only [get_next_cookie_aux, if_pos hu] at h
        have h2 : some (cache.getD idx 0) = some c := h
        rw [← Option.some.inj h2]
        exact hu
      · simp only [get_next_cookie_aux, if_neg hu] at h
        exact ih _ _ h

lemma probe_positions_nodup (n idx : Nat) (hn : 0 < n) :
    ((List.range n).map fun i => (idx + i) % n).Nodup := by
  refine List.Nodup.map_on ?_ (List.nodup_range n)
  intro i hi j hj hij
  rw [List.mem_range] at hi hj
  have hm : i % n = j % n := Nat.ModEq.add_left_cancel' idx hij
  rwa [Nat.mod_eq_of_lt hi, Nat.mod_eq_of_lt hj] at hm

lemma probeSeq_nodup (cache : List Nat) (idx : Nat) (hlen : 0 < cache.length)
    (hnd : cache.Nodup) : (probeSeq cache idx cache.length).Nodup := by
  have hcomp : probeSeq cache idx cache.length =
      ((List.range cache.length).map fun i => (idx + i) % cache.length).map
        fun p => cache.getD p 0 := by
    unfold probeSeq
    rw [List.map_map]
    rfl
  rw [hcomp]
  refine List.Nodup.map_on ?_ (probe_positions_nodup cache.length idx hlen)
  intro p hp q hq hpq
  simp only [List.mem_map, List.mem_range] at hp hq
  obtain ⟨i, hi, rfl⟩ := hp
  obtain ⟨j, hj, rfl⟩ := hq
  have hp1 : (idx + i) % cache.length < cache.length := Nat.mod_lt _ hlen
  have hq1 : (idx + j) % cache.length < cache.length := Nat.mod_lt _ hlen
  rw [List.getD_eq_get cache 0 hp1, List.getD_eq_get cache 0 hq1] at hpq
  have h2 := List.nodup_iff_injective_get.mp hnd hpq
  exact congrArg Fin.val h2

lemma get_next_cookie_unlimited (cache : List Nat) (usage : Nat → Nat) (quota idx : Nat)
    (h : idx < cache.length) (hu : usage (cache.getD idx 0) < quota) :
    get_next_cookie cache usage quota idx =
      (some (cache.getD idx 0), (idx + 1) % cache.length) := by
  rcases cache with _ | ⟨a, as⟩
  · simp at h
  · rw [get_next_cookie_eq_aux _ usage quota idx (by simp)]
    show (if usage ((a :: as).getD idx 0) < quota then
          (some ((a :: as).getD idx 0), (idx + 1) % (a :: as).length)
        else get_next_cookie_aux (a :: as) usage quota ((idx + 1) % (a :: as).length) as.length) =
      (some ((a :: as).getD idx 0), (idx + 1) % (a :: as).length)
    rw [if_pos hu]

lemma selectCalls_unlimited (cache : List Nat) (usage : Nat → Nat) (quota : Nat)
    (hu : ∀ c ∈ cache, usage c < quota) :
    ∀ k idx, idx < cache.length →
      selectCalls cache usage quota idx k = (probeSeq cache idx k).map some := by
  intro k
  induction k with
  | zero =>
      intro idx _
      simp [selectCalls, probeSeq]
  | succ n ih =>
      intro idx h
      have hlen : 0 < cache.length := Nat.lt_of_le_of_lt (Nat.zero_le idx) h
      have hmem : cache.getD idx 0 ∈ cache := by
        rw [List.getD_eq_get cache 0 h]
        exact List.get_mem cache idx h
      rw [probeSeq_succ cache idx n h, List.map_cons]
      show (get_next_cookie cache usage quota idx).1 ::
          selectCalls cache usage quota (get_next_cookie cache usage quota idx).2 n = _
      rw [get_next_cookie_unlimited cache usage quota idx h (hu _ hmem)]
      exact congrArg₂ List.cons rfl (ih _ (Nat.mod_lt _ hlen))

/-- C1: for a pool of N ≥ 1 active credentials, one get_next_cookie call
returns exactly the first credential of the N-probe sequence that starts at
the cursor and advances with wrap-around whose current-day usage is below
the daily quota (and none when no probe has capacity, so at most N probes
are made); the N probed positions are pairwise distinct, so no credential
is probed twice within one call; and over k ≤ N consecutive calls with
unlimited quota and no concurrent mutation the returned credentials are the
next k round-robin entries, each credential visited at most once before any
repeat. -/
theorem C1_round_robin_selection (cache : List Nat) (usage : Nat → Nat) (quota idx k : Nat)
    (h1 : cache ≠ []) (h2 : idx < cache.length) (hk : k ≤ cache.length) :
    (get_next_cookie cache usage quota idx).1 =
      ((probeSeq cache idx cache.length).find? fun c => decide (usage c < quota))
    ∧ ((List.range cache.length).map fun i => (idx + i) % cache.length).Nodup
    ∧ (cache.Nodup → (probeSeq cache idx cache.length).Nodup)
    ∧ (cache.Nodup → (∀ c ∈ cache, usage c < quota) →
        selectCalls cache usage quota idx k = (probeSeq cache idx k).map some
        ∧ (selectCalls cache usage quota idx k).Nodup) := by
  have hlen : 0 < cache.length := List.length_pos.mpr h1
  refine ⟨?_, probe_positions_nodup cache.length idx hlen, ?_, ?_⟩
  · rw [get_next_cookie_eq_aux cache usage quota idx h1]
    exact get_next_cookie_aux_eq_find cache usage quota cache.length idx h2
  · intro hnd
    exact probeSeq_nodup cache idx hlen hnd
  · intro hnd hu
    refine ⟨selectCalls_unlimited cache usage quota hu k idx h2, ?_⟩
    rw [selectCalls_unlimited cache usage quota hu k idx h2]
    have hpn : (probeSeq cache idx k).Nodup := by
      have htake : probeSeq cache idx k = (probeSeq cache idx cache.length).take k := by
        unfold probeSeq
        rw [← List.map_take, List.take_range, min_eq_left hk]
      rw [htake]
      exact List.Nodup.sublist (List.take_sublist k _) (probeSeq_nodup cache idx hlen hnd)
    exact hpn.map (Option.some_injective Nat)

theorem C1_round_robin_selection_witness :
    (get_next_cookie [5, 7, 9] (fun x => x) 100 1).1 =
      ((probeSeq [5, 7, 9] 1 3).find? fun c => decide ((fun x => x) c < 100))
    ∧ ((List.range 3).map fun i => (1 + i) % 3).Nodup
    ∧ (probeSeq [5, 7, 9] 1 3).Nodup
    ∧ selectCalls [5, 7, 9] (fun x => x) 100 1 3 = (probeSeq [5, 7, 9] 1 3).map some
    ∧ (selectCalls [5, 7, 9] (fun x => x) 100 1 3).Nodup := by
  have h := C1_round_robin_selection [5, 7, 9] (fun x => x) 100 1 3
    (by decide) (by decide) (by decide)
  exact ⟨h.1, h.2.1, h.2.2.1 (by decide), (h.2.2.2 (by decide) (by decide)).1,
    (h.2.2.2 (by decide) (by decide)).2⟩

/-- C2: a credential whose current-day usage is at or above the daily quota
is never returned by get_next_cookie, whatever the cursor position; and once
the credential's stored dailyDate differs from the current day (the
rollover), its usage reads as 0 again. -/
theorem C2_quota_exhausted_never_selected (store : Store) (today quota : Nat)
    (cache : List Nat) (idx c : Nat) (r : CookieRec) :
    (quota ≤ get_cookie_daily_usage store today c →
      (get_next_cookie cache (get_cookie_daily_usage store today) quota idx).1 ≠ some c)
    ∧ (store c = some r → r.daily_date ≠ some today →
        get_cookie_daily_usage store today c = 0) := by
  constructor
  · intro hq hsel
    rcases cache with _ | ⟨a, as⟩
    · simp [get_next_cookie] at hsel
    · rw [get_next_cookie_eq_aux _ _ quota idx (by simp)] at hsel
      have hlt := get_next_cookie_aux_lt_quota (a :: as) (get_cookie_daily_usage store today)
        quota (a :: as).length idx c hsel
      omega
  · intro hr hstale
    simp [get_cookie_daily_usage, hr, if_neg hstale]

theorem C2_quota_exhausted_never_selected_witness :
    (get_next_cookie [5]
        (get_cookie_daily_usage (fun x => if x = 5 then some ⟨1, 0, 3, some 7⟩ else none) 7)
        3 0).1 ≠ some 5
    ∧ get_cookie_daily_usage (fun x => if x = 5 then some ⟨1, 0, 4, some 6⟩ else none) 7 5 = 0 :=
  ⟨(C2_quota_exhausted_never_selected
      (fun x => if x = 5 then some ⟨1, 0, 3, some 7⟩ else none) 7 3 [5] 0 5
      ⟨0, 0, 0, none⟩).1 (by decide),
   (C2_quota_exhausted_never_selected
      (fun x => if x = 5 then some ⟨1, 0, 4, some 6⟩ else none) 7 3 [] 0 5
      ⟨1, 0, 4, some 6⟩).2 (by decide) (by decide)⟩

lemma generate_valid_some (prompt : String) (width height : Nat) (akid : Option Nat)
    (cid : Nat) (responses : Nat → BackendResp)
    (hv : (validate_size width height).1 = true) :
    generate prompt width height akid (some cid) responses =
      ⟨(do_generate cid responses).1, 1, (do_generate cid responses).2,
       [(cid, (do_generate cid responses).1.success)],
       [⟨prompt, width, height, some cid, akid,
         if (do_generate cid responses).1.success then "success" else "failed",
         (do_generate cid responses).1.error, (do_generate cid responses).1.image_url⟩]⟩ := by
  unfold generate
  rw [if_pos hv]

lemma generate_valid_none (prompt : String) (width height : Nat) (akid : Option Nat)
    (responses : Nat → BackendResp) (hv : (validate_size width height).1 = true) :
    generate prompt width height akid none responses =
      ⟨⟨false, none, none, some "没有可用的Cookie，请先添加Cookie", none⟩, 1, 0, [], []⟩ := by
  unfold generate
  rw [if_pos hv]

lemma generate_invalid (prompt : String) (width height : Nat) (akid : Option Nat)
    (sel : Option Nat) (responses : Nat → BackendResp)
    (hv : (validate_size width height).1 = false) :
    generate prompt width height akid sel responses =
      ⟨⟨false, none, none, some (validate_size width height).2, none⟩, 0, 0, [], []⟩ := by
  unfold generate
  rw [if_neg (by simp [hv])]

lemma do_generate_eq (cid : Nat) (responses : Nat → BackendResp) :
    do_generate cid responses =
      do_generate_loop cid [responses 0, responses 1, responses 2] := rfl

lemma do_generate_first_badRequest (cid : Nat) (responses : Nat → BackendResp) (msg : String)
    (h : responses 0 = BackendResp.badRequest msg) :
    do_generate cid responses =
      (⟨false, none, none, some ("请求参数错误: " ++ msg), some cid⟩, 1) := by
  rw [do_generate_eq, h]
  rfl

lemma do_generate_first_authFailed (cid : Nat) (responses : Nat → BackendResp)
    (h : responses 0 = BackendResp.authFailed) :
    do_generate cid responses =
      (⟨false, none, none, some "Cookie/Token无效或已过期", some cid⟩, 1) := by
  rw [do_generate_eq, h]
  rfl

lemma gwr_loop_all_none (prompt : String) (width height : Nat) (akid : Option Nat)
    (hv : (validate_size width height).1 = true) :
    ∀ oracle : List (Option Nat × (Nat → BackendResp)), (∀ x ∈ oracle, x.1 = none) →
      ∀ le : Option String,
        generate_with_retry_loop prompt width height akid oracle le =
          ⟨⟨false, none, none,
            some ("所有Cookie都失败: " ++
              optStr (if oracle.isEmpty then le else some "没有可用的Cookie，请先添加Cookie")),
            none⟩, oracle.length, 0, [], []⟩ := by
  intro oracle
  induction oracle with
  | nil => intro _ le; rfl
  | cons hd tl ih =>
      intro hall le
      obtain ⟨sel, resp⟩ := hd
      have hsel : sel = none := hall (sel, resp) (List.mem_cons_self _ _)
      subst hsel
      have htl := ih (fun x hx => hall x (List.mem_cons_of_mem _ hx))
        (some "没有可用的Cookie，请先添加Cookie")
      simp only [generate_with_retry_loop]
      rw [generate_valid_none prompt width height akid resp hv]
      dsimp only
      rw [if_neg Bool.false_ne_true, htl]
      simp [ite_self, optStr, Nat.add_comm]

/-- C3 counterexample: on a 2-credential pool answering HTTP 400 to every
call, the orchestrator does fail over: three selections and three backend
calls happen, failures are recorded on both credentials, and the error is
surfaced only after outer-loop exhaustion in wrapped form — contradicting
"no further retry on that credential and no failover to another credential".
The first conjunct checks the oracle is the genuine round-robin schedule of
the pool [1, 2] with unlimited quota. -/
theorem C3_counterexample :
    selectCalls [1, 2] (fun _ => 0) 100 0 3 = [some 1, some 2, some 1]
    ∧ (generate_with_retry "p" 512 512 none C3oracle).selectCalls = 3
    ∧ (generate_with_retry "p" 512 512 none C3oracle).backendCalls = 3
    ∧ (generate_with_retry "p" 512 512 none C3oracle).marks =
        [(1, false), (2, false), (1, false)]
    ∧ (generate_with_retry "p" 512 512 none C3oracle).result.error =
        some "所有Cookie都失败: 请求参数错误: bad"
    ∧ ¬ (generate_with_retry "p" 512 512 none C3oracle).selectCalls = 1 := by
  refine ⟨by decide, ?_, ?_, ?_, ?_, ?_⟩ <;> decide

/-- C3 (amended): when a backend call returns HTTP 400, `_do_generate`
returns immediately — exactly one backend call, no same-credential retry
within that generate call — and the orchestrator records exactly one
failure on the credential and keeps the 400 message as the call's error;
however `generate_with_retry` treats the failed call like any other
failure: the outer loop continues with a further iteration (its
selectCredential call included), so the error is not surfaced to the caller
immediately but only through the outer loop's last-error reporting. -/
theorem C3_bad_request_amended (prompt : String) (width height : Nat) (akid : Option Nat)
    (cid : Nat) (msg : String) (responses : Nat → BackendResp)
    (rest : List (Option Nat × (Nat → BackendResp))) (lastErr : Option String)
    (hv : (validate_size width height).1 = true)
    (h0 : responses 0 = BackendResp.badRequest msg) :
    do_generate cid responses =
      (⟨false, none, none, some ("请求参数错误: " ++ msg), some cid⟩, 1)
    ∧ (generate prompt width height akid (some cid) responses).backendCalls = 1
    ∧ (generate prompt width height akid (some cid) responses).marks = [(cid, false)]
    ∧ (generate prompt width height akid (some cid) responses).result.error =
        some ("请求参数错误: " ++ msg)
    ∧ (generate_with_retry_loop prompt width height akid
          ((some cid, responses) :: rest) lastErr).selectCalls =
        1 + (generate_with_retry_loop prompt width height akid rest
          (some ("请求参数错误: " ++ msg))).selectCalls := by
  have hdg := do_generate_first_badRequest cid responses msg h0
  have hg := generate_valid_some prompt width height akid cid responses hv
  rw [hdg] at hg
  refine ⟨hdg, ?_, ?_, ?_, ?_⟩
  · rw [hg]
  · rw [hg]
  · rw [hg]
  · simp only [generate_with_retry_loop]
    rw [hg]
    dsimp only
    rw [if_neg Bool.false_ne_true]

theorem C3_bad_request_amended_witness :
    do_generate 1 (fun _ => BackendResp.badRequest "bad") =
      (⟨false, none, none, some "请求参数错误: bad", some 1⟩, 1)
    ∧ (generate "p" 512 512 none (some 1) (fun _ => BackendResp.badRequest "bad")).backendCalls = 1
    ∧ (generate "p" 512 512 none (some 1) (fun _ => BackendResp.badRequest "bad")).marks =
        [(1, false)]
    ∧ (generate "p" 512 512 none (some 1) (fun _ => BackendResp.badRequest "bad")).result.error =
        some "请求参数错误: bad"
    ∧ (generate_with_retry_loop "p" 512 512 none
          ((some 1, fun _ => BackendResp.badRequest "bad") :: [(none, fun _ => BackendResp.okNoData)])
          none).selectCalls =
        1 + (generate_with_retry_loop "p" 512 512 none [(none, fun _ => BackendResp.okNoData)]
          (some "请求参数错误: bad")).selectCalls :=
  C3_bad_request_amended "p" 512 512 none 1 "bad" (fun _ => BackendResp.badRequest "bad")
    [(none, fun _ => BackendResp.okNoData)] none (by decide) rfl

/-- C4: when get_next_cookie returns none, the generate call fails with the
pool-exhaustion error making no backend call, recording no outcome and
writing no log; and a whole generate_with_retry request whose every
selection comes back none never invokes the backend at all and fails
carrying the pool-exhaustion message. -/
theorem C4_pool_exhaustion (prompt : String) (width height : Nat) (akid : Option Nat)
    (responses : Nat → BackendResp) (oracle : List (Option Nat × (Nat → BackendResp)))
    (hv : (validate_size width height).1 = true)
    (hall : ∀ x ∈ oracle, x.1 = none) (hne : oracle ≠ []) :
    generate prompt width height akid none responses =
      ⟨⟨false, none, none, some "没有可用的Cookie，请先添加Cookie", none⟩, 1, 0, [], []⟩
    ∧ generate_with_retry prompt width height akid oracle =
        ⟨⟨false, none, none, some ("所有Cookie都失败: " ++ "没有可用的Cookie，请先添加Cookie"),
          none⟩, oracle.length, 0, [], []⟩ := by
  refine ⟨generate_valid_none prompt width height akid responses hv, ?_⟩
  rw [generate_with_retry, gwr_loop_all_none prompt width height akid hv oracle hall none]
  have he : oracle.isEmpty = false := by simp [List.isEmpty_iff, hne]
  rw [he]
  rfl

theorem C4_pool_exhaustion_witness :
    generate "p" 512 512 none none (fun _ => BackendResp.okNoData) =
      ⟨⟨false, none, none, some "没有可用的Cookie，请先添加Cookie", none⟩, 1, 0, [], []⟩
    ∧ generate_with_retry "p" 512 512 none
        [(none, fun _ => BackendResp.okNoData), (none, fun _ => BackendResp.okNoData),
         (none, fun _ => BackendResp.okNoData)] =
      ⟨⟨false, none, none, some ("所有Cookie都失败: " ++ "没有可用的Cookie，请先添加Cookie"),
        none⟩, 3, 0, [], []⟩ :=
  C4_pool_exhaustion "p" 512 512 none (fun _ => BackendResp.okNoData)
    [(none, fun _ => BackendResp.okNoData), (none, fun _ => BackendResp.okNoData),
     (none, fun _ => BackendResp.okNoData)]
    (by decide) (by decide) (List.cons_ne_nil _ _)

/-- C5 counterexample: on a 1-credential pool answering HTTP 401 to every
call, the failover loop re-selects and re-uses the same credential on all
three outer iterations — three backend calls with credential 1 and three
failure records — contradicting "that credential is never retried again
within the same request".  The first conjunct checks that the pool of size
1 genuinely keeps returning credential 1. -/
theorem C5_counterexample :
    selectCalls [1] (fun _ => 0) 100 0 3 = [some 1, some 1, some 1]
    ∧ (generate_with_retry "p" 512 512 none C5oracle).marks =
        [(1, false), (1, false), (1, false)]
    ∧ (generate_with_retry "p" 512 512 none C5oracle).backendCalls = 3
    ∧ (generate_with_retry "p" 512 512 none C5oracle).result.error =
        some "所有Cookie都失败: Cookie/Token无效或已过期" := by
  refine ⟨by decide, ?_, ?_, ?_⟩ <;> decide

/-- C5 (amended): when a backend call returns HTTP 401, a failure is
recorded against that credential immediately and the inner loop is
abandoned at once — exactly one backend call, no further inner-loop budget
consumed — and the orchestrator advances to the next outer (failover)
iteration, whose round-robin selection may, in a small pool, return the
same credential again. -/
theorem C5_auth_failed_amended (prompt : String) (width height : Nat) (akid : Option Nat)
    (cid : Nat) (responses : Nat → BackendResp)
    (rest : List (Option Nat × (Nat → BackendResp))) (lastErr : Option String)
    (hv : (validate_size width height).1 = true)
    (h0 : responses 0 = BackendResp.authFailed) :
    do_generate cid responses =
      (⟨false, none, none, some "Cookie/Token无效或已过期", some cid⟩, 1)
    ∧ (generate prompt width height akid (some cid) responses).backendCalls = 1
    ∧ (generate prompt width height akid (some cid) responses).marks = [(cid, false)]
    ∧ (generate_with_retry_loop prompt width height akid
          ((some cid, responses) :: rest) lastErr).selectCalls =
        1 + (generate_with_retry_loop prompt width height akid rest
          (some "Cookie/Token无效或已过期")).selectCalls := by
  have hdg := do_generate_first_authFailed cid responses h0
  have hg := generate_valid_some prompt width height akid cid responses hv
  rw [hdg] at hg
  refine ⟨hdg, ?_, ?_, ?_⟩
  · rw [hg]
  · rw [hg]
  · simp only [generate_with_retry_loop]
    rw [hg]
    dsimp only
    rw [if_neg Bool.false_ne_true]

theorem C5_auth_failed_amended_witness :
    do_generate 1 (fun _ => BackendResp.authFailed) =
      (⟨false, none, none, some "Cookie/Token无效或已过期", some 1⟩, 1)
    ∧ (generate "p" 512 512 none (some 1) (fun _ => BackendResp.authFailed)).backendCalls = 1
    ∧ (generate "p" 512 512 none (some 1) (fun _ => BackendResp.authFailed)).marks = [(1, false)]
    ∧ (generate_with_retry_loop "p" 512 512 none
          ((some 1, fun _ => BackendResp.authFailed) :: [(none, fun _ => BackendResp.okNoData)])
          none).selectCalls =
        1 + (generate_with_retry_loop "p" 512 512 none [(none, fun _ => BackendResp.okNoData)]
          (some "Cookie/Token无效或已过期")).selectCalls :=
  C5_auth_failed_amended "p" 512 512 none 1 (fun _ => BackendResp.authFailed)
    [(none, fun _ => BackendResp.okNoData)] none (by decide) rfl

/-- C6: a generate call that obtains a credential records the outcome via
mark_cookie_used exactly once and writes exactly one log row, whatever the
backend does; in particular RateLimited on attempts 1 and 2 followed by a
success on attempt 3 makes three backend calls but exactly one success
record and one log row; and a generate call that obtains no credential
records nothing and writes no log row. -/
theorem C6_record_outcome_once (prompt : String) (width height : Nat) (akid : Option Nat)
    (cid : Nat) (responses responses2 : Nat → BackendResp) (b : String) (url : Option String)
    (hv : (validate_size width height).1 = true)
    (h0 : responses2 0 = BackendResp.rateLimited)
    (h1 : responses2 1 = BackendResp.rateLimited)
    (h2 : responses2 2 = BackendResp.okImage (some b) url) :
    ((generate prompt width height akid (some cid) responses).marks =
        [(cid, (generate prompt width height akid (some cid) responses).result.success)]
      ∧ (generate prompt width height akid (some cid) responses).logs.length = 1)
    ∧ generate prompt width height akid (some cid) responses2 =
        ⟨⟨true, url, some b, none, some cid⟩, 1, 3, [(cid, true)],
         [⟨prompt, width, height, some cid, akid, "success", none, url⟩]⟩
    ∧ (generate prompt width height akid none responses).marks = []
    ∧ (generate prompt width height akid none responses).logs = [] := by
  have hg := generate_valid_some prompt width height akid cid responses hv
  have hdg2 : do_generate cid responses2 = (⟨true, url, some b, none, some cid⟩, 3) := by
    rw [do_generate_eq, h0, h1, h2]
    rfl
  have hg2 := generate_valid_some prompt width height akid cid responses2 hv
  rw [hdg2] at hg2
  refine ⟨⟨?_, ?_⟩, ?_, ?_, ?_⟩
  · rw [hg]
  · rw [hg]
    rfl
  · rw [hg2]
    rfl
  · rw [generate_valid_none prompt width height akid responses hv]
  · rw [generate_valid_none prompt width height akid responses hv]

theorem C6_record_outcome_once_witness :
    ((generate "p" 512 512 none (some 1) (fun _ => BackendResp.okNoData)).marks =
        [(1, (generate "p" 512 512 none (some 1)
          (fun _ => BackendResp.okNoData)).result.success)]
      ∧ (generate "p" 512 512 none (some 1) (fun _ => BackendResp.okNoData)).logs.length = 1)
    ∧ generate "p" 512 512 none (some 1)
        (fun n => if n ≤ 1 then BackendResp.rateLimited
          else BackendResp.okImage (some "img") none) =
        ⟨⟨true, none, some "img", none, some 1⟩, 1, 3, [(1, true)],
         [⟨"p", 512, 512, some 1, none, "success", none, none⟩]⟩
    ∧ (generate "p" 512 512 none none (fun _ => BackendResp.okNoData)).marks = []
    ∧ (generate "p" 512 512 none none (fun _ => BackendResp.okNoData)).logs = [] :=
  C6_record_outcome_once "p" 512 512 none 1 (fun _ => BackendResp.okNoData)
    (fun n => if n ≤ 1 then BackendResp.rateLimited
      else BackendResp.okImage (some "img") none) "img" none
    (by decide) rfl rfl rfl

/-- C7: a request whose width or height is below the configured minimum of
256 is rejected with the validation error before get_next_cookie is ever
invoked (zero selections) and before any credential state is read or
modified (zero backend calls, no usage record, no log row). -/
theorem C7_validation_first (prompt : String) (width height : Nat)
    (akid : Option Nat) (sel : Option Nat) (responses : Nat → BackendResp)
    (h : width < MIN_IMAGE_SIZE ∨ height < MIN_IMAGE_SIZE) :
    generate prompt width height akid sel responses =
      ⟨⟨false, none, none,
        some ("尺寸不能小于 " ++ toString MIN_IMAGE_SIZE ++ "x" ++ toString MIN_IMAGE_SIZE),
        none⟩, 0, 0, [], []⟩ := by
  have hv : validate_size width height =
      (false, "尺寸不能小于 " ++ toString MIN_IMAGE_SIZE ++ "x" ++ toString MIN_IMAGE_SIZE) := by
    unfold validate_size
    rw [if_pos h]
  rw [generate_invalid prompt width height akid sel responses (by rw [hv])]
  rw [hv]

theorem C7_validation_first_witness :
    generate "p" 100 100 none (some 1) (fun _ => BackendResp.okNoData) =
      ⟨⟨false, none, none, some "尺寸不能小于 256x256", none⟩, 0, 0, [], []⟩ :=
  C7_validation_first "p" 100 100 none (some 1) (fun _ => BackendResp.okNoData)
    (Or.inl (by decide))

/-- C8: dailyUsedCount is meaningful only when dailyDate equals the current
date: a read of a credential's daily usage whose stored dailyDate differs
from the current date reports 0, and a write (usage update) against a stale
dailyDate first resets dailyUsedCount to 0 and advances dailyDate to the
current date before use (a success write thus lands at count 1 for today,
a failure write leaves the freshly reset count 0 and dailyDate today). -/
theorem C8_daily_rollover (store : Store) (today cid : Nat) (r : CookieRec)
    (hr : store cid = some r) (hstale : r.daily_date ≠ some today) :
    get_cookie_daily_usage store today cid = 0
    ∧ update_cookie_usage store today cid true cid
        = some ⟨r.use_count + 1, r.error_count, 1, some today⟩
    ∧ update_cookie_usage store today cid false cid
        = some ⟨r.use_count, r.error_count + 1, 0, some today⟩ := by
  refine ⟨?_, ?_, ?_⟩
  · simp [get_cookie_daily_usage, hr, if_neg hstale]
  · simp [update_cookie_usage, hr, if_pos hstale, setStore]
  · simp [update_cookie_usage, hr, if_pos hstale, setStore]

theorem C8_daily_rollover_witness :
    get_cookie_daily_usage (fun x => if x = 4 then some ⟨9, 2, 7, some 5⟩ else none) 6 4 = 0
    ∧ update_cookie_usage (fun x => if x = 4 then some ⟨9, 2, 7, some 5⟩ else none) 6 4 true 4
        = some ⟨10, 2, 1, some 6⟩
    ∧ update_cookie_usage (fun x => if x = 4 then some ⟨9, 2, 7, some 5⟩ else none) 6 4 false 4
        = some ⟨9, 3, 0, some 6⟩ :=
  C8_daily_rollover (fun x => if x = 4 then some ⟨9, 2, 7, some 5⟩ else none) 6 4
    ⟨9, 2, 7, some 5⟩ (by decide) (by decide)

/-- C9: the caller of generate is never told which credential was used: the
response built by the router carries only the success flag, the image
references and the error string, and is unchanged when the internal
cookie_id differs (noninterference of credential identity). -/
theorem C9_no_credential_identity (s : Bool) (u b e : Option String) (c1 c2 : Option Nat) :
    generate_image_response ⟨s, u, b, e, c1⟩ = ⟨s, u, b, e⟩
    ∧ generate_image_response ⟨s, u, b, e, c1⟩ = generate_image_response ⟨s, u, b, e, c2⟩ :=
  ⟨rfl, rfl⟩

/-- C10: a credential id with no stored row reads a daily usage of 0 and a
remaining quota equal to the full configured daily quota; both operations
return normally. -/
theorem C10_missing_credential (store : Store) (today quota cid : Nat)
    (h : store cid = none) :
    get_cookie_daily_usage store today cid = 0
    ∧ get_cookie_remaining_quota store today quota cid = (quota : Int) := by
  have hu : get_cookie_daily_usage store today cid = 0 := by
    simp [get_cookie_daily_usage, h]
  refine ⟨hu, ?_⟩
  simp [get_cookie_remaining_quota, hu]

theorem C10_missing_credential_witness :
    get_cookie_daily_usage (fun _ => none) 3 42 = 0
    ∧ get_cookie_remaining_quota (fun _ => none) 3 100 42 = (100 : Int) :=
  C10_missing_credential (fun _ => none) 3 100 42 rfl

end ZZImage
